import Mathlib

/-!
# Verification of the interview-guide résumé intake and interview session engine

This file gives a shallow embedding of the résumé intake / deduplication
logic of `ResumeController.java` and of the interview session engine
(create-or-resume, answer submission, early completion, report synthesis),
and proves the specified properties about them.

External collaborators (text extraction, storage, the AI grading
capability) are modelled as deterministic function-valued environment
records.  Side effects (storage writes, analysis calls, deletions) are
made observable as an explicit trace of effect events returned by each
operation.
-/

deriving instance DecidableEq for Except

namespace InterviewGuide

/-! ## Data model: résumé intake -/

/-- A résumé analysis result (`ResumeAnalysisResponse`): overall score plus
free-form content, modelled abstractly. -/
structure Analysis where
  overallScore : Nat
  summary : String
deriving DecidableEq, Repr

/-- A stored résumé record (`ResumeEntity`): id, content fingerprint,
extracted text, storage key and public URL. -/
structure ResumeRecord where
  id : Nat
  fingerprint : String
  resumeText : String
  storageKey : String
  storageUrl : String
deriving DecidableEq, Repr

/-- The résumé-side database: résumé records, analyses keyed by résumé id
(latest first), and a fresh-id counter. -/
structure ResumeDB where
  resumes : List ResumeRecord
  analyses : List (Nat × Analysis)
  nextId : Nat
deriving DecidableEq, Repr

/-- An uploaded file as the controller sees it: raw bytes, name, detected
content type. -/
structure UploadedFile where
  bytes : List Nat
  name : String
  contentType : String
deriving DecidableEq, Repr

/-- Observable side effects of the intake/deletion operations. -/
inductive Effect where
  | dedupLookup (fp : String)
  | parseCall
  | storageWrite (key : String)
  | saveResume (id : Nat)
  | analysisCall (text : String)
  | saveAnalysis (id : Nat)
  | storageDeleteAttempt (key : String) (ok : Bool)
  | deleteSessions (resumeId : Nat)
  | deleteRecord (id : Nat)
deriving DecidableEq, Repr

/-- Environment of external collaborators used by intake: text extraction
(`ResumeParseService.parseResume`), the list of allowed content types,
résumé analysis (`ResumeGradingService.analyzeResume`), and storage
(`FileStorageService.uploadResume` / `getFileUrl`). -/
structure Env where
  extractText : List Nat → String
  allowedTypes : List String
  analyzeResume : String → Analysis
  storageKeyFor : UploadedFile → String
  urlFor : String → String

/-- Typed intake errors: `badRequest` for an empty file,
`unsupportedType` for a disallowed content type, and `parseFailed`
(`RESUME_PARSE_FAILED`, the spec's `ExtractionFailed`) for empty or
whitespace-only extracted text. -/
inductive IntakeError where
  | badRequest
  | unsupportedType
  | parseFailed
deriving DecidableEq, Repr

/-- Result payload of a successful upload, mirroring the controller's
response map: the analysis, the storage info and the duplicate flag. -/
structure UploadResult where
  analysis : Analysis
  fileKey : String
  fileUrl : String
  resumeId : Nat
  duplicate : Bool
deriving DecidableEq, Repr

/-- Drop leading and trailing whitespace from a character list. -/
def trimChars (l : List Char) : List Char :=
  ((l.dropWhile Char.isWhitespace).reverse.dropWhile Char.isWhitespace).reverse

/-- Executable embedding of Java's `String.trim`. -/
def strTrim (s : String) : String := ⟨trimChars s.data⟩

/-- Executable embedding of Java's `String.toLowerCase`. -/
def strToLower (s : String) : String := ⟨s.data.map Char.toLower⟩

/-- Executable embedding of Java's `String.isEmpty`. -/
def strIsEmpty (s : String) : Bool := s.data.isEmpty

/-- Substring test on character lists, used to embed Java's
`String.contains`. -/
def charsContain : List Char → List Char → Bool
  | _, [] => true
  | [], _ :: _ => false
  | c :: hay, needle => needle.isPrefixOf (c :: hay) || charsContain hay needle

/-- Embeds `isAllowedType`: some configured allowed type and the detected
content type must contain one another (case-insensitively) in at least one
direction. -/
def isAllowedType (env : Env) (contentType : String) : Bool :=
  env.allowedTypes.any fun allowed =>
    charsContain (strToLower contentType).data (strToLower allowed).data ||
    charsContain (strToLower allowed).data (strToLower contentType).data

/-- Modelled from the spec: text normalization used by the fingerprint.
`ResumePersistenceService` is not part of the given sources; the spec
says the fingerprint is a stable hash over normalized extracted text. -/
def normalize (s : String) : String := strTrim s

/-- Modelled from the spec: the content fingerprint of an upload is a
stable hash over the normalized extracted text (not the raw bytes).  The
hash is modelled as the normalized text itself, which is stable and
injective, matching the spec's fingerprint-uniqueness invariant. -/
def fingerprintOf (env : Env) (file : UploadedFile) : String :=
  normalize (env.extractText file.bytes)

/-- Modelled from the spec: `ResumePersistenceService.findExistingResume`
looks up an existing `ResumeRecord` by the content fingerprint of the
uploaded file. -/
def findExistingResume (env : Env) (db : ResumeDB) (file : UploadedFile) :
    Option ResumeRecord :=
  db.resumes.find? fun r => r.fingerprint == fingerprintOf env file

/-- Modelled from the spec: `getLatestAnalysisAsDTO` returns the latest
cached analysis for a résumé id, if any (analyses are stored latest
first). -/
def getLatestAnalysis (db : ResumeDB) (resumeId : Nat) : Option Analysis :=
  (db.analyses.find? fun p => p.1 == resumeId).map Prod.snd

/-- Embeds `ResumeController.uploadAndAnalyze`: validate the file, check
the content type, look up a duplicate by fingerprint (returning the
cached analysis if present, regenerating it without persisting if not),
and otherwise parse, store, persist and analyze the new résumé.  Returns
the outcome together with the updated database and the trace of observable
effects. -/
def uploadAndAnalyze (env : Env) (db : ResumeDB) (file : UploadedFile) :
    Except IntakeError UploadResult × ResumeDB × List Effect :=
  if file.bytes.isEmpty then
    (.error .badRequest, db, [])
  else if !isAllowedType env file.contentType then
    (.error .unsupportedType, db, [])
  else
    let fp := fingerprintOf env file
    match findExistingResume env db file with
    | some resume =>
        match getLatestAnalysis db resume.id with
        | some cached =>
            (.ok { analysis := cached, fileKey := resume.storageKey,
                   fileUrl := resume.storageUrl, resumeId := resume.id,
                   duplicate := true },
             db, [.dedupLookup fp])
        | none =>
            let fresh := env.analyzeResume resume.resumeText
            (.ok { analysis := fresh, fileKey := resume.storageKey,
                   fileUrl := resume.storageUrl, resumeId := resume.id,
                   duplicate := true },
             db, [.dedupLookup fp, .analysisCall resume.resumeText])
    | none =>
        let resumeText := env.extractText file.bytes
        if strIsEmpty (strTrim resumeText) then
          (.error .parseFailed, db, [.dedupLookup fp, .parseCall])
        else
          let fileKey := env.storageKeyFor file
          let fileUrl := env.urlFor fileKey
          let rid := db.nextId
          let record : ResumeRecord :=
            { id := rid, fingerprint := fp, resumeText := resumeText,
              storageKey := fileKey, storageUrl := fileUrl }
          let analysis := env.analyzeResume resumeText
          let db' : ResumeDB :=
            { resumes := record :: db.resumes,
              analyses := (rid, analysis) :: db.analyses,
              nextId := db.nextId + 1 }
          (.ok { analysis := analysis, fileKey := fileKey, fileUrl := fileUrl,
                 resumeId := rid, duplicate := false },
           db', [.dedupLookup fp, .parseCall, .storageWrite fileKey,
                 .saveResume rid, .analysisCall resumeText, .saveAnalysis rid])

/-! ## Data model: interview session engine

Modelled from the spec: the backend session engine (session creation,
answer submission, early completion, report synthesis) is not among the
given sources — only its frontend callers are — so its operations are
modelled from the spec's component design (sections 3, 4.2, 4.3, 4.4). -/

/-- Session lifecycle states. -/
inductive SessionStatus where
  | NOT_STARTED
  | IN_PROGRESS
  | COMPLETED
deriving DecidableEq, Repr

/-- An interview question within a session: index, text, category tag,
and the nullable answer / score / feedback filled in by grading. -/
structure Question where
  questionIndex : Nat
  question : String
  category : String
  userAnswer : Option String
  score : Option Nat
  feedback : Option String
deriving DecidableEq, Repr

/-- An interview session: id, owning résumé id, the fixed question
sequence, the 0-based cursor and the lifecycle status. -/
structure Session where
  sessionId : Nat
  resumeId : Nat
  questions : List Question
  currentQuestionIndex : Nat
  status : SessionStatus
deriving DecidableEq, Repr

/-- Per-question detail echoed into a report. -/
structure QuestionDetail where
  questionIndex : Nat
  question : String
  category : String
  score : Nat
  userAnswer : String
  feedback : String
deriving DecidableEq, Repr

/-- Per-question reference answer with key points. -/
structure ReferenceAnswer where
  questionIndex : Nat
  question : String
  referenceAnswer : String
  keyPoints : List String
deriving DecidableEq, Repr

/-- An interview report: overall score, per-category aggregates,
narrative feedback, strengths, improvements, per-question detail and
reference answers. -/
structure Report where
  overallScore : ℚ
  categoryScores : List (String × ℚ)
  overallFeedback : String
  strengths : List String
  improvements : List String
  questionDetails : List QuestionDetail
  referenceAnswers : List ReferenceAnswer
deriving DecidableEq, Repr

/-- The engine-side database: sessions and reports keyed by session id,
plus a fresh-session-id counter. -/
structure EngineDB where
  sessions : List Session
  reports : List (Nat × Report)
  nextSessionId : Nat
deriving DecidableEq, Repr

/-- Environment of capability calls used by the engine: question
generation, per-answer grading, report synthesis and reference answers. -/
structure GEnv where
  generateQuestions : String → Nat → List (String × String)
  gradeAnswer : String → String → Nat × String
  synthesize : List (String × String × Nat × String) → String × List String × List String
  referenceAnswer : String → String × List String

/-- Typed engine errors (spec section 7 taxonomy, plus the implicit
resume-not-found error of `deleteResume`). -/
inductive EngineError where
  | generationFailed
  | sessionNotFound
  | sessionCompleted
  | indexMismatch
  | sessionNotCompleted
deriving DecidableEq, Repr

/-- Observable side effects of the engine operations. -/
inductive GEffect where
  | generateCall (text : String) (count : Nat)
  | gradeCall (question answer : String)
  | synthesisCall (sessionId : Nat)
deriving DecidableEq, Repr

/-- A session is active for a résumé id when it belongs to it and is not
COMPLETED. -/
def isActiveFor (resumeId : Nat) (s : Session) : Bool :=
  s.resumeId == resumeId && !(s.status == .COMPLETED)

/-- Modelled from the spec: `findUnfinishedSession` — the read-only
lookup of the active (non-COMPLETED) session of a résumé. -/
def findActiveSession (st : EngineDB) (resumeId : Nat) : Option Session :=
  st.sessions.find? (isActiveFor resumeId)

/-- Lookup of a session by its id. -/
def findSession (st : EngineDB) (sessionId : Nat) : Option Session :=
  st.sessions.find? fun s => s.sessionId == sessionId

/-- Replace the first session with the given id by the given session,
modelling an update-by-primary-key on the session store. -/
def replaceSession : List Session → Nat → Session → List Session
  | [], _, _ => []
  | t :: rest, sid, s' =>
      if t.sessionId == sid then s' :: rest
      else t :: replaceSession rest sid s'

/-- Modelled from the spec: `createOrResumeSession` — return the active
session for the résumé unchanged if one exists, otherwise generate the
requested number of questions and persist a fresh session with cursor 0;
fail with `GenerationFailed` (persisting nothing) when generation cannot
produce the requested count. -/
def createOrResumeSession (env : GEnv) (st : EngineDB) (resumeText : String)
    (questionCount : Nat) (resumeId : Nat) :
    Except EngineError Session × EngineDB × List GEffect :=
  match findActiveSession st resumeId with
  | some s => (.ok s, st, [])
  | none =>
      let generated := env.generateQuestions resumeText questionCount
      if generated.length ≠ questionCount then
        (.error .generationFailed, st, [.generateCall resumeText questionCount])
      else
        let qs := generated.enum.map fun p =>
          { questionIndex := p.1, question := p.2.1, category := p.2.2,
            userAnswer := none, score := none, feedback := none : Question }
        let s : Session :=
          { sessionId := st.nextSessionId, resumeId := resumeId,
            questions := qs, currentQuestionIndex := 0, status := .NOT_STARTED }
        (.ok s,
         { st with sessions := s :: st.sessions,
                   nextSessionId := st.nextSessionId + 1 },
         [.generateCall resumeText questionCount])

/-- Result payload of a successful answer submission. -/
structure SubmitResult where
  score : Nat
  feedback : String
  hasNextQuestion : Bool
  nextQuestion : Option Question
deriving DecidableEq, Repr

/-- Modelled from the spec: `submitAnswer` — reject unknown sessions,
completed sessions and submissions whose index is not the current cursor;
otherwise record the answer on the cursor question, grade it, advance the
cursor by one, and either return the next question (IN_PROGRESS) or
transition to COMPLETED when the cursor reaches the end. -/
def submitAnswer (env : GEnv) (st : EngineDB) (sessionId questionIndex : Nat)
    (answerText : String) :
    Except EngineError SubmitResult × EngineDB × List GEffect :=
  match findSession st sessionId with
  | none => (.error .sessionNotFound, st, [])
  | some s =>
      if s.status = .COMPLETED then (.error .sessionCompleted, st, [])
      else if questionIndex ≠ s.currentQuestionIndex then
        (.error .indexMismatch, st, [])
      else
        let qText := ((s.questions.get? questionIndex).map Question.question).getD ""
        let graded := env.gradeAnswer qText answerText
        let qs' := s.questions.map fun q =>
          if q.questionIndex == questionIndex then
            { q with userAnswer := some answerText,
                     score := some graded.1, feedback := some graded.2 }
          else q
        let newCursor := questionIndex + 1
        let finished := decide (s.questions.length ≤ newCursor)
        let s' : Session :=
          { s with questions := qs', currentQuestionIndex := newCursor,
                   status := if finished then .COMPLETED else .IN_PROGRESS }
        (.ok { score := graded.1, feedback := graded.2,
               hasNextQuestion := !finished,
               nextQuestion := if finished then none else qs'.get? newCursor },
         { st with sessions := replaceSession st.sessions sessionId s' },
         [.gradeCall qText answerText])

/-- The feedback text recorded on questions zero-scored by early
completion, indicating non-response. -/
def nonResponseFeedback : String := "Not answered: question was skipped at early completion"

/-- Zero-fill applied by early completion: an unanswered question at or
after the cursor gets score 0 and non-response feedback; every other
question is untouched. -/
def zeroFill (cursor : Nat) (q : Question) : Question :=
  if cursor ≤ q.questionIndex && q.userAnswer.isNone then
    { q with score := some 0, feedback := some nonResponseFeedback }
  else q

/-- The session produced by early completion: all unanswered questions
from the cursor onward zero-filled, status COMPLETED, cursor unchanged. -/
def completedFill (s : Session) : Session :=
  { s with questions := s.questions.map (zeroFill s.currentQuestionIndex),
           status := .COMPLETED }

/-- Modelled from the spec: `completeEarly` — reject unknown or already
completed sessions; otherwise zero-score every unanswered question from
the cursor onward with non-response feedback and transition the session
to COMPLETED without advancing the cursor. -/
def completeEarly (st : EngineDB) (sessionId : Nat) :
    Except EngineError Unit × EngineDB × List GEffect :=
  match findSession st sessionId with
  | none => (.error .sessionNotFound, st, [])
  | some s =>
      if s.status = .COMPLETED then (.error .sessionCompleted, st, [])
      else
        (.ok (),
         { st with sessions := replaceSession st.sessions sessionId (completedFill s) },
         [])

/-- Score of a question for aggregation: the recorded score, counting an
ungraded question as 0. -/
def qScore (q : Question) : ℚ := (q.score.getD 0 : Nat)

/-- Arithmetic mean of a list of rationals. -/
def mean (l : List ℚ) : ℚ := l.sum / l.length

/-- The distinct category tags present in a question sequence. -/
def categoriesOf (qs : List Question) : List String :=
  (qs.map Question.category).dedup

/-- Mean score of the questions carrying a given category tag. -/
def categoryScore (qs : List Question) (c : String) : ℚ :=
  mean ((qs.filter fun q => q.category == c).map qScore)

/-- Modelled from the spec: report synthesis for a completed session —
overall score is the mean of per-question scores (0 for unanswered),
category scores are per-category means (one entry per distinct category
present), narrative parts come from a single synthesis capability call,
and the per-question details and reference answers echo the questions. -/
def buildReport (env : GEnv) (s : Session) : Report :=
  let tuples := s.questions.map fun q =>
    (q.question, q.userAnswer.getD "", q.score.getD 0, q.feedback.getD "")
  let synth := env.synthesize tuples
  { overallScore := mean (s.questions.map qScore)
    categoryScores := (categoriesOf s.questions).map fun c =>
      (c, categoryScore s.questions c)
    overallFeedback := synth.1
    strengths := synth.2.1
    improvements := synth.2.2
    questionDetails := s.questions.map fun q =>
      { questionIndex := q.questionIndex, question := q.question,
        category := q.category, score := q.score.getD 0,
        userAnswer := q.userAnswer.getD "", feedback := q.feedback.getD "" }
    referenceAnswers := s.questions.map fun q =>
      { questionIndex := q.questionIndex, question := q.question,
        referenceAnswer := (env.referenceAnswer q.question).1,
        keyPoints := (env.referenceAnswer q.question).2 } }

/-- Modelled from the spec: `getReport` — reject unknown sessions and
sessions that are not COMPLETED; return the cached report unchanged when
one exists; otherwise synthesize the report once, persist it and return
it. -/
def getReport (env : GEnv) (st : EngineDB) (sessionId : Nat) :
    Except EngineError Report × EngineDB × List GEffect :=
  match findSession st sessionId with
  | none => (.error .sessionNotFound, st, [])
  | some s =>
      if s.status ≠ .COMPLETED then (.error .sessionNotCompleted, st, [])
      else
        match st.reports.find? fun p => p.1 == sessionId with
        | some p => (.ok p.2, st, [])
        | none =>
            let rep := buildReport env s
            (.ok rep,
             { st with reports := (sessionId, rep) :: st.reports },
             [.synthesisCall sessionId])

/-- Typed error of `deleteResume`. -/
inductive DeleteError where
  | resumeNotFound
deriving DecidableEq, Repr

/-- Embeds `ResumeController.deleteResume`: fail with resume-not-found if
the id is unknown; otherwise best-effort delete the stored blob (a
storage failure, modelled by `storageOk = false`, is swallowed), then
delete all sessions owned by the résumé (with their reports), then delete
the record and its analyses. -/
def deleteResume (db : ResumeDB) (eng : EngineDB) (storageOk : Bool) (id : Nat) :
    Except DeleteError Unit × ResumeDB × EngineDB × List Effect :=
  match db.resumes.find? fun r => r.id == id with
  | none => (.error .resumeNotFound, db, eng, [])
  | some resume =>
      let tr :=
        if resume.storageKey ≠ "" then
          [Effect.storageDeleteAttempt resume.storageKey storageOk]
        else []
      let removedSessionIds :=
        (eng.sessions.filter fun s => s.resumeId == id).map Session.sessionId
      let eng' : EngineDB :=
        { eng with sessions := eng.sessions.filter fun s => !(s.resumeId == id),
                   reports := eng.reports.filter fun p => !(removedSessionIds.contains p.1) }
      let db' : ResumeDB :=
        { db with resumes := db.resumes.filter fun r => !(r.id == id),
                  analyses := db.analyses.filter fun p => !(p.1 == id) }
      (.ok (), db', eng', tr ++ [.deleteSessions id, .deleteRecord id])

/-! ## Theorems: résumé intake and deletion (`ResumeController.java`) -/

/-- C10: deleteResume on an id with no existing ResumeRecord fails with a
resume-not-found error and changes nothing: no storage deletion, no
session deletion and no database deletion happen on that path. -/
theorem deleteResume_missing_noop (db : ResumeDB) (eng : EngineDB)
    (storageOk : Bool) (id : Nat)
    (hfind : db.resumes.find? (fun r => r.id == id) = none) :
    deleteResume db eng storageOk id = (.error .resumeNotFound, db, eng, []) := by
  unfold deleteResume
  rw [hfind]

/-- Witness for C10: deleting id 5 from a database holding only résumé 1
fails with resume-not-found and leaves both databases untouched. -/
theorem deleteResume_missing_noop_w :
    deleteResume
      { resumes := [{ id := 1, fingerprint := "f", resumeText := "t",
                      storageKey := "k", storageUrl := "u" }],
        analyses := [], nextId := 2 }
      { sessions := [], reports := [], nextSessionId := 0 } true 5 =
    (.error .resumeNotFound,
     { resumes := [{ id := 1, fingerprint := "f", resumeText := "t",
                     storageKey := "k", storageUrl := "u" }],
       analyses := [], nextId := 2 },
     { sessions := [], reports := [], nextSessionId := 0 }, []) :=
  deleteResume_missing_noop _ _ true 5 (by decide)

/-- C8: deleteResume on an existing résumé attempts the storage deletion
first and best-effort (the database cleanup is identical whether storage
deletion succeeds or fails), then deletes all sessions owned by the
résumé, then the record and its analyses; afterwards no session, record
or analysis for that résumé remains. -/
theorem deleteResume_best_effort (db : ResumeDB) (eng : EngineDB)
    (storageOk : Bool) (id : Nat) (r : ResumeRecord)
    (hfind : db.resumes.find? (fun x => x.id == id) = some r) :
    (deleteResume db eng storageOk id).1 = .ok () ∧
    (deleteResume db eng storageOk id).2.1 = (deleteResume db eng true id).2.1 ∧
    (deleteResume db eng storageOk id).2.2.1 = (deleteResume db eng true id).2.2.1 ∧
    (∀ s ∈ (deleteResume db eng storageOk id).2.2.1.sessions, s.resumeId ≠ id) ∧
    (∀ x ∈ (deleteResume db eng storageOk id).2.1.resumes, x.id ≠ id) ∧
    (∀ p ∈ (deleteResume db eng storageOk id).2.1.analyses, p.1 ≠ id) ∧
    (r.storageKey ≠ "" →
      (deleteResume db eng storageOk id).2.2.2 =
        [.storageDeleteAttempt r.storageKey storageOk,
         .deleteSessions id, .deleteRecord id]) := by
  unfold deleteResume
  rw [hfind]
  refine ⟨rfl, rfl, rfl, ?_, ?_, ?_, ?_⟩
  · intro s hs
    simp only [List.mem_filter, Bool.not_eq_true'] at hs
    simpa using hs.2
  · intro x hx
    simp only [List.mem_filter, Bool.not_eq_true'] at hx
    simpa using hx.2
  · intro p hp
    simp only [List.mem_filter, Bool.not_eq_true'] at hp
    simpa using hp.2
  · intro hk
    simp [hk]

/-- Witness for C8: deleting résumé 1, which owns a completed session and
its report, removes the session, the report key and the record even when
the storage deletion fails, and the trace shows storage-then-sessions-
then-record ordering. -/
theorem deleteResume_best_effort_w :
    ((deleteResume
        { resumes := [{ id := 1, fingerprint := "f", resumeText := "t",
                        storageKey := "k", storageUrl := "u" }],
          analyses := [(1, { overallScore := 50, summary := "s" })], nextId := 2 }
        { sessions := [{ sessionId := 7, resumeId := 1, questions := [],
                         currentQuestionIndex := 0, status := .COMPLETED }],
          reports := [], nextSessionId := 8 } false 1).1 = .ok ()) ∧
    (∀ s ∈ (deleteResume
        { resumes := [{ id := 1, fingerprint := "f", resumeText := "t",
                        storageKey := "k", storageUrl := "u" }],
          analyses := [(1, { overallScore := 50, summary := "s" })], nextId := 2 }
        { sessions := [{ sessionId := 7, resumeId := 1, questions := [],
                         currentQuestionIndex := 0, status := .COMPLETED }],
          reports := [], nextSessionId := 8 } false 1).2.2.1.sessions,
        s.resumeId ≠ 1) ∧
    ((deleteResume
        { resumes := [{ id := 1, fingerprint := "f", resumeText := "t",
                        storageKey := "k", storageUrl := "u" }],
          analyses := [(1, { overallScore := 50, summary := "s" })], nextId := 2 }
        { sessions := [{ sessionId := 7, resumeId := 1, questions := [],
                         currentQuestionIndex := 0, status := .COMPLETED }],
          reports := [], nextSessionId := 8 } false 1).2.2.2 =
      [.storageDeleteAttempt "k" false, .deleteSessions 1, .deleteRecord 1]) := by
  have h := deleteResume_best_effort
    { resumes := [{ id := 1, fingerprint := "f", resumeText := "t",
                    storageKey := "k", storageUrl := "u" }],
      analyses := [(1, { overallScore := 50, summary := "s" })], nextId := 2 }
    { sessions := [{ sessionId := 7, resumeId := 1, questions := [],
                     currentQuestionIndex := 0, status := .COMPLETED }],
      reports := [], nextSessionId := 8 } false 1
    { id := 1, fingerprint := "f", resumeText := "t",
      storageKey := "k", storageUrl := "u" } (by decide)
  exact ⟨h.1, h.2.2.2.1, h.2.2.2.2.2.2 (by decide)⟩

/-- C1: intake of content whose fingerprint matches an existing record
with a cached analysis returns that record and analysis with
`duplicate = true`, performing no storage write and no analysis call; and
after a first successful non-duplicate intake, repeating the upload of
byte-identical content is idempotent: it is reported as a duplicate with
the same analysis, leaves the database unchanged and performs no further
storage write or analysis call. -/
theorem intake_duplicate_idempotent (env : Env) (db : ResumeDB)
    (file : UploadedFile)
    (hne : file.bytes.isEmpty = false)
    (hty : isAllowedType env file.contentType = true) :
    (∀ r a, findExistingResume env db file = some r →
        getLatestAnalysis db r.id = some a →
        uploadAndAnalyze env db file =
          (.ok { analysis := a, fileKey := r.storageKey, fileUrl := r.storageUrl,
                 resumeId := r.id, duplicate := true }, db,
           [.dedupLookup (fingerprintOf env file)])) ∧
    (findExistingResume env db file = none →
      strIsEmpty (strTrim (env.extractText file.bytes)) = false →
      ∀ res db' tr, uploadAndAnalyze env db file = (.ok res, db', tr) →
        res.duplicate = false ∧
        ∃ res2,
          uploadAndAnalyze env db' file =
            (.ok res2, db', [.dedupLookup (fingerprintOf env file)]) ∧
          res2.duplicate = true ∧ res2.analysis = res.analysis) := by
  constructor
  · intro r a hfind hcache
    simp [uploadAndAnalyze, hne, hty, hfind, hcache]
  · intro hnone hnonempty res db' tr h
    simp [uploadAndAnalyze, hne, hty, hnone, hnonempty] at h
    obtain ⟨hres, hdb, htr⟩ := h
    subst hdb
    refine ⟨by rw [← hres], ?_⟩
    refine ⟨{ analysis := env.analyzeResume (env.extractText file.bytes),
              fileKey := env.storageKeyFor file,
              fileUrl := env.urlFor (env.storageKeyFor file),
              resumeId := db.nextId, duplicate := true }, ?_, rfl, by rw [← hres]⟩
    simp [uploadAndAnalyze, hne, hty, findExistingResume, getLatestAnalysis,
      List.find?]

/-- A concrete collaborator environment used by witnesses: bytes `[1]`
extract to `"text one"`, anything else extracts to the empty string. -/
def envW : Env :=
  { extractText := fun b => if b = [1] then "text one" else "",
    allowedTypes := ["text/plain"],
    analyzeResume := fun t => { overallScore := 77, summary := t },
    storageKeyFor := fun _ => "key",
    urlFor := fun k => "url-" ++ k }

/-- A concrete upload whose extracted text is `"text one"`. -/
def fileW : UploadedFile :=
  { bytes := [1], name := "cv.txt", contentType := "text/plain" }

/-- A concrete upload whose extracted text is empty. -/
def fileBlankW : UploadedFile :=
  { bytes := [2], name := "blank.txt", contentType := "text/plain" }

/-- An empty résumé database. -/
def dbW : ResumeDB := { resumes := [], analyses := [], nextId := 10 }

/-- The résumé database after the first successful intake of `fileW`. -/
def dbResW : ResumeDB :=
  { resumes := [{ id := 10, fingerprint := "text one", resumeText := "text one",
                  storageKey := "key", storageUrl := "url-key" }],
    analyses := [(10, { overallScore := 77, summary := "text one" })],
    nextId := 11 }

/-- Witness for C1: after a first non-duplicate intake of `fileW`, the
byte-identical re-upload is reported as a duplicate with the same
analysis, an unchanged database, and a trace holding only the dedup
lookup. -/
theorem intake_duplicate_idempotent_w :
    ∃ res2, uploadAndAnalyze envW dbResW fileW =
        (.ok res2, dbResW, [.dedupLookup (fingerprintOf envW fileW)]) ∧
      res2.duplicate = true ∧
      res2.analysis = { overallScore := 77, summary := "text one" } := by
  have h := (intake_duplicate_idempotent envW dbW fileW (by decide) (by decide)).2
    (by decide) (by decide)
    { analysis := { overallScore := 77, summary := "text one" },
      fileKey := "key", fileUrl := "url-key", resumeId := 10, duplicate := false }
    dbResW
    [.dedupLookup (fingerprintOf envW fileW), .parseCall, .storageWrite "key",
     .saveResume 10, .analysisCall "text one", .saveAnalysis 10]
    (by decide)
  exact h.2

/-- C9: on the duplicate-intake path with no cached analysis, a fresh
analysis of the stored record's text is generated and returned, but never
persisted: the database is unchanged and no save-analysis effect occurs,
so a subsequent duplicate upload in that state triggers another analysis
call. -/
theorem intake_uncached_reanalysis (env : Env) (db : ResumeDB)
    (file : UploadedFile) (r : ResumeRecord)
    (hne : file.bytes.isEmpty = false)
    (hty : isAllowedType env file.contentType = true)
    (hfind : findExistingResume env db file = some r)
    (hnoc : getLatestAnalysis db r.id = none) :
    uploadAndAnalyze env db file =
      (.ok { analysis := env.analyzeResume r.resumeText, fileKey := r.storageKey,
             fileUrl := r.storageUrl, resumeId := r.id, duplicate := true },
       db, [.dedupLookup (fingerprintOf env file), .analysisCall r.resumeText]) ∧
    Effect.saveAnalysis r.id ∉ (uploadAndAnalyze env db file).2.2 ∧
    Effect.analysisCall r.resumeText ∈
      (uploadAndAnalyze env (uploadAndAnalyze env db file).2.1 file).2.2 := by
  have h : uploadAndAnalyze env db file =
      (.ok { analysis := env.analyzeResume r.resumeText, fileKey := r.storageKey,
             fileUrl := r.storageUrl, resumeId := r.id, duplicate := true },
       db, [.dedupLookup (fingerprintOf env file), .analysisCall r.resumeText]) := by
    simp [uploadAndAnalyze, hne, hty, hfind, hnoc]
  refine ⟨h, ?_, ?_⟩
  · rw [h]
    simp
  · rw [h]
    simp only
    rw [h]
    simp

/-- A résumé database holding a record matching `fileW`'s fingerprint but
no cached analysis for it. -/
def dbNoCacheW : ResumeDB :=
  { resumes := [{ id := 3, fingerprint := "text one", resumeText := "stored text",
                  storageKey := "k3", storageUrl := "u3" }],
    analyses := [], nextId := 4 }

/-- Witness for C9: a duplicate upload against `dbNoCacheW` returns a
fresh analysis of the stored text, leaves the database unchanged, and a
repeat upload performs another analysis call. -/
theorem intake_uncached_reanalysis_w :
    uploadAndAnalyze envW dbNoCacheW fileW =
      (.ok { analysis := { overallScore := 77, summary := "stored text" },
             fileKey := "k3", fileUrl := "u3", resumeId := 3, duplicate := true },
       dbNoCacheW,
       [.dedupLookup (fingerprintOf envW fileW), .analysisCall "stored text"]) ∧
    Effect.analysisCall "stored text" ∈
      (uploadAndAnalyze envW (uploadAndAnalyze envW dbNoCacheW fileW).2.1 fileW).2.2 := by
  have h := intake_uncached_reanalysis envW dbNoCacheW fileW
    { id := 3, fingerprint := "text one", resumeText := "stored text",
      storageKey := "k3", storageUrl := "u3" }
    (by decide) (by decide) (by decide) (by decide)
  exact ⟨h.1, h.2.2⟩

/-- Counterexample for C6: on a concrete input whose extracted text is
empty, intake does fail with the extraction error, but the fingerprint
lookup has already been performed — the trace records the dedup lookup
before the extraction check — refuting the claim that the emptiness check
precedes the fingerprint lookup (under which the failing path would
contain no lookup). -/
theorem intake_check_order_cex :
    (uploadAndAnalyze envW dbW fileBlankW).1 = .error .parseFailed ∧
    (uploadAndAnalyze envW dbW fileBlankW).2.2 =
      [.dedupLookup "", .parseCall] := by
  decide

/-- C6 (amended): intake computes the content fingerprint from the
normalized extracted text (not the raw bytes); the fingerprint lookup
precedes the emptiness check; and on the no-duplicate path every input
whose extracted text is empty or whitespace-only fails with the
extraction error, with no storage write performed and no ResumeRecord
created (the database is returned unchanged). -/
theorem intake_extraction_gate (env : Env) (db : ResumeDB) (file : UploadedFile)
    (hne : file.bytes.isEmpty = false)
    (hty : isAllowedType env file.contentType = true)
    (hnone : findExistingResume env db file = none)
    (hempty : strIsEmpty (strTrim (env.extractText file.bytes)) = true) :
    uploadAndAnalyze env db file =
      (.error .parseFailed, db,
       [.dedupLookup (normalize (env.extractText file.bytes)), .parseCall]) := by
  simp [uploadAndAnalyze, hne, hty, hnone, hempty, fingerprintOf]

/-- Witness for C6 (amended): the empty-extraction upload fails with the
extraction error after the lookup, leaving the database unchanged. -/
theorem intake_extraction_gate_w :
    uploadAndAnalyze envW dbW fileBlankW =
      (.error .parseFailed, dbW, [.dedupLookup (normalize ""), .parseCall]) :=
  intake_extraction_gate envW dbW fileBlankW (by decide) (by decide)
    (by decide) (by decide)

/-! ## Theorems: interview session engine -/

/-- Two sessions may coexist only if they are not both active for the
same résumé: whenever both are non-COMPLETED they own different résumé
ids. -/
def ActiveConflict (a b : Session) : Prop :=
  a.status ≠ .COMPLETED → b.status ≠ .COMPLETED → a.resumeId ≠ b.resumeId

instance : DecidableRel ActiveConflict := fun a b => by
  unfold ActiveConflict
  infer_instance

/-- The at-most-one-active-session invariant: no two sessions in the
store are simultaneously active for the same résumé id. -/
def AtMostOneActive (st : EngineDB) : Prop :=
  st.sessions.Pairwise ActiveConflict

instance (st : EngineDB) : Decidable (AtMostOneActive st) := by
  unfold AtMostOneActive
  infer_instance

/-- Membership after an update-by-key: an element of the updated list is
the replacement or an element of the original list. -/
theorem mem_replaceSession {l : List Session} {sid : Nat} {s' t : Session}
    (h : t ∈ replaceSession l sid s') : t = s' ∨ t ∈ l := by
  induction l with
  | nil => simp [replaceSession] at h
  | cons a rest ih =>
      unfold replaceSession at h
      by_cases ha : (a.sessionId == sid) = true
      · rw [if_pos ha] at h
        rcases List.mem_cons.mp h with h1 | h2
        · exact Or.inl h1
        · exact Or.inr (List.mem_cons_of_mem a h2)
      · rw [if_neg ha] at h
        rcases List.mem_cons.mp h with h1 | h2
        · exact Or.inr (h1 ▸ List.mem_cons_self a rest)
        · rcases ih h2 with h3 | h4
          · exact Or.inl h3
          · exact Or.inr (List.mem_cons_of_mem a h4)

/-- An update-by-key is found by a subsequent lookup for that key. -/
theorem find?_replaceSession {l : List Session} {sid : Nat} {s s' : Session}
    (hfind : l.find? (fun t => t.sessionId == sid) = some s)
    (hsid : s'.sessionId = sid) :
    (replaceSession l sid s').find? (fun t => t.sessionId == sid) = some s' := by
  induction l with
  | nil => simp at hfind
  | cons a rest ih =>
      unfold replaceSession
      by_cases ha : (a.sessionId == sid) = true
      · rw [if_pos ha]
        have hs' : (s'.sessionId == sid) = true := by simp [hsid]
        simp [List.find?, hs']
      · rw [if_neg ha]
        have ha' : (a.sessionId == sid) = false := by simpa using ha
        simp only [List.find?, ha'] at hfind ⊢
        exact ih hfind

/-- Replacing the session found for a key by a session that keeps its
résumé id and is active only if the original was preserves the
at-most-one-active invariant. -/
theorem pairwise_replaceSession {l : List Session} {sid : Nat} {s s' : Session}
    (hp : l.Pairwise ActiveConflict)
    (hfind : l.find? (fun t => t.sessionId == sid) = some s)
    (hrid : s'.resumeId = s.resumeId)
    (hstat : s'.status ≠ .COMPLETED → s.status ≠ .COMPLETED) :
    (replaceSession l sid s').Pairwise ActiveConflict := by
  induction l with
  | nil => simp [replaceSession]
  | cons a rest ih =>
      rw [List.pairwise_cons] at hp
      obtain ⟨hcf, hrest⟩ := hp
      unfold replaceSession
      by_cases ha : (a.sessionId == sid) = true
      · rw [if_pos ha]
        simp only [List.find?, ha, Option.some.injEq] at hfind
        have hsa : s = a := hfind.symm
        subst hsa
        rw [List.pairwise_cons]
        refine ⟨?_, hrest⟩
        intro b hb hact hbact
        rw [hrid]
        exact hcf b hb (hstat hact) hbact
      · rw [if_neg ha]
        have ha' : (a.sessionId == sid) = false := by simpa using ha
        simp only [List.find?, ha'] at hfind
        rw [List.pairwise_cons]
        refine ⟨?_, ih hrest hfind⟩
        intro b hb
        rcases mem_replaceSession hb with rfl | hbmem
        · intro haact hbact
          have hsmem : s ∈ rest := List.mem_of_find?_eq_some hfind
          rw [hrid]
          exact hcf s hsmem haact (hstat hbact)
        · exact hcf b hbmem

/-- Creating or resuming a session preserves the at-most-one-active
invariant: resumption leaves the store unchanged, and a new session is
created only when no active session exists for the résumé id. -/
theorem createOrResume_preserves_inv (env : GEnv) (st : EngineDB)
    (text : String) (cnt rid : Nat) (hinv : AtMostOneActive st) :
    AtMostOneActive (createOrResumeSession env st text cnt rid).2.1 := by
  unfold createOrResumeSession
  cases hfind : findActiveSession st rid with
  | some s => exact hinv
  | none =>
      by_cases hlen : (env.generateQuestions text cnt).length ≠ cnt
      · rw [if_pos hlen]
        exact hinv
      · rw [if_neg hlen]
        unfold AtMostOneActive
        rw [List.pairwise_cons]
        refine ⟨?_, hinv⟩
        intro b hb _ hba
        unfold findActiveSession at hfind
        rw [List.find?_eq_none] at hfind
        have h2 := hfind b hb
        simp only [isActiveFor, Bool.and_eq_true, Bool.not_eq_true',
          beq_eq_false_iff_ne, beq_iff_eq, not_and] at h2
        intro heq
        exact h2 heq.symm (by simpa using hba)

/-- Submitting an answer preserves the at-most-one-active invariant: the
updated session keeps its résumé id and can only move toward
completion. -/
theorem submitAnswer_preserves_inv (env : GEnv) (st : EngineDB)
    (sid qi : Nat) (ans : String) (hinv : AtMostOneActive st) :
    AtMostOneActive (submitAnswer env st sid qi ans).2.1 := by
  unfold submitAnswer
  cases hfind : findSession st sid with
  | none => exact hinv
  | some s =>
      dsimp only
      by_cases hc : s.status = .COMPLETED
      · rw [if_pos hc]
        exact hinv
      · rw [if_neg hc]
        by_cases hqi : qi ≠ s.currentQuestionIndex
        · rw [if_pos hqi]
          exact hinv
        · rw [if_neg hqi]
          exact pairwise_replaceSession hinv hfind rfl fun _ => hc

/-- Early completion preserves the at-most-one-active invariant: the
updated session becomes COMPLETED. -/
theorem completeEarly_preserves_inv (st : EngineDB) (sid : Nat)
    (hinv : AtMostOneActive st) :
    AtMostOneActive (completeEarly st sid).2.1 := by
  unfold completeEarly
  cases hfind : findSession st sid with
  | none => exact hinv
  | some s =>
      dsimp only
      by_cases hc : s.status = .COMPLETED
      · rw [if_pos hc]
        exact hinv
      · rw [if_neg hc]
        exact pairwise_replaceSession hinv hfind rfl fun h => absurd rfl h

/-- Fetching a report leaves the session store untouched. -/
theorem getReport_sessions_eq (env : GEnv) (st : EngineDB) (sid : Nat) :
    (getReport env st sid).2.1.sessions = st.sessions := by
  unfold getReport
  cases hfind : findSession st sid with
  | none => rfl
  | some s =>
      dsimp only
      by_cases hc : s.status ≠ .COMPLETED
      · rw [if_pos hc]
      · rw [if_neg hc]
        cases hrep : st.reports.find? fun p => p.1 == sid with
        | some p => rfl
        | none => rfl

/-- C2: at most one non-COMPLETED session exists per résumé id, preserved
by every operation: create-or-resume on a résumé with an active session
returns that session unchanged (a resumption, not a creation), two
consecutive create-or-resume calls for the same résumé id yield the same
session (in particular the same session id), and create-or-resume, answer
submission, early completion and report retrieval all preserve the
invariant. -/
theorem session_single_active (env : GEnv) (st : EngineDB)
    (hinv : AtMostOneActive st) :
    (∀ rid s text cnt, findActiveSession st rid = some s →
        createOrResumeSession env st text cnt rid = (.ok s, st, [])) ∧
    (∀ text cnt rid s1 st1 tr1 s2 st2 tr2,
        createOrResumeSession env st text cnt rid = (.ok s1, st1, tr1) →
        createOrResumeSession env st1 text cnt rid = (.ok s2, st2, tr2) →
        s2.sessionId = s1.sessionId ∧ s2 = s1 ∧ st2 = st1) ∧
    (∀ text cnt rid, AtMostOneActive (createOrResumeSession env st text cnt rid).2.1) ∧
    (∀ sid qi ans, AtMostOneActive (submitAnswer env st sid qi ans).2.1) ∧
    (∀ sid, AtMostOneActive (completeEarly st sid).2.1) ∧
    (∀ sid, AtMostOneActive (getReport env st sid).2.1) := by
  refine ⟨?_, ?_, fun text cnt rid => createOrResume_preserves_inv env st text cnt rid hinv,
    fun sid qi ans => submitAnswer_preserves_inv env st sid qi ans hinv,
    fun sid => completeEarly_preserves_inv st sid hinv,
    fun sid => by
      unfold AtMostOneActive
      rw [getReport_sessions_eq]
      exact hinv⟩
  · intro rid s text cnt hfind
    unfold createOrResumeSession
    rw [hfind]
  · intro text cnt rid s1 st1 tr1 s2 st2 tr2 h1 h2
    cases hfind : findActiveSession st rid with
    | some s =>
        unfold createOrResumeSession at h1
        rw [hfind] at h1
        simp only [Prod.mk.injEq, Except.ok.injEq] at h1
        obtain ⟨hs1, hst1, -⟩ := h1
        subst hs1 hst1
        unfold createOrResumeSession at h2
        rw [hfind] at h2
        simp only [Prod.mk.injEq, Except.ok.injEq] at h2
        obtain ⟨hs2, hst2, -⟩ := h2
        subst hs2 hst2
        exact ⟨rfl, rfl, rfl⟩
    | none =>
        unfold createOrResumeSession at h1
        rw [hfind] at h1
        by_cases hlen : (env.generateQuestions text cnt).length ≠ cnt
        · rw [if_pos hlen] at h1
          simp at h1
        · rw [if_neg hlen] at h1
          simp only [Prod.mk.injEq, Except.ok.injEq] at h1
          obtain ⟨hs1, hst1, -⟩ := h1
          have hfind2 : findActiveSession st1 rid =
              some { sessionId := st.nextSessionId, resumeId := rid,
                     questions := (env.generateQuestions text cnt).enum.map fun p =>
                       { questionIndex := p.1, question := p.2.1, category := p.2.2,
                         userAnswer := none, score := none, feedback := none : Question },
                     currentQuestionIndex := 0, status := .NOT_STARTED } := by
            rw [← hst1]
            simp [findActiveSession, List.find?, isActiveFor]
            rfl
          unfold createOrResumeSession at h2
          rw [hfind2] at h2
          simp only [Prod.mk.injEq, Except.ok.injEq] at h2
          obtain ⟨hs2, hst2, -⟩ := h2
          subst hs1 hs2 hst2
          exact ⟨rfl, rfl, rfl⟩

/-- C3: submitAnswer fails with SessionNotFound when the session id is
unknown, SessionCompleted when the session is COMPLETED, and
IndexMismatch when the submitted index differs from the cursor; on
success the cursor advances by exactly one, the session becomes COMPLETED
with hasNextQuestion = false exactly when the new cursor reaches the end
of the fixed question sequence, and otherwise the session stays
IN_PROGRESS and the next question is returned. -/
theorem submitAnswer_protocol (env : GEnv) (st : EngineDB) (sid qi : Nat)
    (ans : String) :
    (findSession st sid = none →
        submitAnswer env st sid qi ans = (.error .sessionNotFound, st, [])) ∧
    (∀ s, findSession st sid = some s → s.status = .COMPLETED →
        submitAnswer env st sid qi ans = (.error .sessionCompleted, st, [])) ∧
    (∀ s, findSession st sid = some s → s.status ≠ .COMPLETED →
        qi ≠ s.currentQuestionIndex →
        submitAnswer env st sid qi ans = (.error .indexMismatch, st, [])) ∧
    (∀ s, findSession st sid = some s → s.status ≠ .COMPLETED →
        qi = s.currentQuestionIndex →
        ∀ r st' tr, submitAnswer env st sid qi ans = (.ok r, st', tr) →
          ∃ s', findSession st' sid = some s' ∧
            s'.currentQuestionIndex = s.currentQuestionIndex + 1 ∧
            (s'.status = .COMPLETED ↔
              s.questions.length ≤ s.currentQuestionIndex + 1) ∧
            (r.hasNextQuestion = false ↔
              s.questions.length ≤ s.currentQuestionIndex + 1) ∧
            (s.currentQuestionIndex + 1 < s.questions.length →
              s'.status = .IN_PROGRESS ∧ r.hasNextQuestion = true ∧
              r.nextQuestion = s'.questions.get? (s.currentQuestionIndex + 1))) := by
  refine ⟨?_, ?_, ?_, ?_⟩
  · intro hfind
    unfold submitAnswer
    rw [hfind]
  · intro s hfind hc
    unfold submitAnswer
    rw [hfind]
    dsimp only
    rw [if_pos hc]
  · intro s hfind hc hqi
    unfold submitAnswer
    rw [hfind]
    dsimp only
    rw [if_neg hc, if_pos hqi]
  · intro s hfind hc hqi r st' tr h
    subst hqi
    have hsid : s.sessionId = sid := by
      have := List.find?_some hfind
      simpa using this
    unfold submitAnswer at h
    rw [hfind] at h
    dsimp only at h
    rw [if_neg hc, if_neg (not_not_intro rfl)] at h
    simp only [Prod.mk.injEq, Except.ok.injEq] at h
    obtain ⟨hr, hst, -⟩ := h
    subst hr hst
    refine ⟨_, find?_replaceSession hfind hsid, rfl, ?_, ?_, ?_⟩
    · by_cases hfin : s.questions.length ≤ s.currentQuestionIndex + 1 <;>
        simp [hfin]
    · by_cases hfin : s.questions.length ≤ s.currentQuestionIndex + 1 <;>
        simp [hfin]
    · intro hlt
      have hfin : ¬s.questions.length ≤ s.currentQuestionIndex + 1 :=
        Nat.not_le.mpr hlt
      simp [hfin]

/-- C5: completeEarly fails with SessionCompleted on an already completed
session; otherwise it succeeds, the session becomes COMPLETED, the cursor
is not advanced, and every unanswered question from the cursor to the end
of the sequence is assigned score 0 with non-response feedback while
questions before the cursor are untouched. -/
theorem completeEarly_zero_fill (st : EngineDB) (sid : Nat) :
    (findSession st sid = none →
        completeEarly st sid = (.error .sessionNotFound, st, [])) ∧
    (∀ s, findSession st sid = some s → s.status = .COMPLETED →
        completeEarly st sid = (.error .sessionCompleted, st, [])) ∧
    (∀ s, findSession st sid = some s → s.status ≠ .COMPLETED →
        (completeEarly st sid).1 = .ok () ∧
        ∃ s', findSession (completeEarly st sid).2.1 sid = some s' ∧
          s'.status = .COMPLETED ∧
          s'.currentQuestionIndex = s.currentQuestionIndex ∧
          s'.questions = s.questions.map (zeroFill s.currentQuestionIndex) ∧
          (∀ q ∈ s.questions, s.currentQuestionIndex ≤ q.questionIndex →
            q.userAnswer = none →
            zeroFill s.currentQuestionIndex q =
              { q with score := some 0, feedback := some nonResponseFeedback }) ∧
          (∀ q ∈ s.questions, q.questionIndex < s.currentQuestionIndex →
            zeroFill s.currentQuestionIndex q = q)) := by
  refine ⟨?_, ?_, ?_⟩
  · intro hfind
    unfold completeEarly
    rw [hfind]
  · intro s hfind hc
    unfold completeEarly
    rw [hfind]
    dsimp only
    rw [if_pos hc]
  · intro s hfind hc
    have hsid : s.sessionId = sid := by
      have := List.find?_some hfind
      simpa using this
    have heq : completeEarly st sid =
        (.ok (),
         { st with sessions := replaceSession st.sessions sid (completedFill s) },
         []) := by
      unfold completeEarly
      rw [hfind]
      dsimp only
      rw [if_neg hc]
    rw [heq]
    refine ⟨rfl, _, find?_replaceSession hfind hsid, rfl, rfl, rfl, ?_, ?_⟩
    · intro q _ hle hnone
      unfold zeroFill
      rw [if_pos (by simp [hle, hnone])]
    · intro q _ hlt
      unfold zeroFill
      rw [if_neg (by simp [Nat.not_le.mpr hlt])]

/-- Evaluation of a first report request on a completed session with no
cached report: the report is synthesized, persisted and returned. -/
theorem getReport_fresh_eq (env : GEnv) (st : EngineDB) (sid : Nat)
    (s : Session) (hfind : findSession st sid = some s)
    (hc : s.status = .COMPLETED)
    (hnor : st.reports.find? (fun x => x.1 == sid) = none) :
    getReport env st sid =
      (.ok (buildReport env s),
       { st with reports := (sid, buildReport env s) :: st.reports },
       [.synthesisCall sid]) := by
  unfold getReport
  rw [hfind]
  dsimp only
  rw [if_neg (not_not_intro hc), hnor]

/-- C4: getReport on a session that is not COMPLETED fails with
SessionNotCompleted; on a COMPLETED session the report is computed and
persisted exactly once, on the first request (with one synthesis call),
and every later request returns the identical cached report with no
further synthesis call and no state change. -/
theorem getReport_once_cached (env : GEnv) (st : EngineDB) (sid : Nat) :
    (findSession st sid = none →
        getReport env st sid = (.error .sessionNotFound, st, [])) ∧
    (∀ s, findSession st sid = some s → s.status ≠ .COMPLETED →
        getReport env st sid = (.error .sessionNotCompleted, st, [])) ∧
    (∀ s, findSession st sid = some s → s.status = .COMPLETED →
        ∀ p, st.reports.find? (fun x => x.1 == sid) = some p →
          getReport env st sid = (.ok p.2, st, [])) ∧
    (∀ s, findSession st sid = some s → s.status = .COMPLETED →
        st.reports.find? (fun x => x.1 == sid) = none →
        ∀ rep st' tr, getReport env st sid = (.ok rep, st', tr) →
          rep = buildReport env s ∧
          st' = { st with reports := (sid, rep) :: st.reports } ∧
          tr = [.synthesisCall sid] ∧
          getReport env st' sid = (.ok rep, st', [])) := by
  refine ⟨?_, ?_, ?_, ?_⟩
  · intro hfind
    unfold getReport
    rw [hfind]
  · intro s hfind hc
    unfold getReport
    rw [hfind]
    dsimp only
    rw [if_pos hc]
  · intro s hfind hc p hrep
    unfold getReport
    rw [hfind]
    dsimp only
    rw [if_neg (not_not_intro hc), hrep]
  · intro s hfind hc hnor rep st' tr h
    rw [getReport_fresh_eq env st sid s hfind hc hnor] at h
    simp only [Prod.mk.injEq, Except.ok.injEq] at h
    obtain ⟨hrep, hst, htr⟩ := h
    subst hrep hst htr
    refine ⟨rfl, rfl, rfl, ?_⟩
    unfold getReport
    have hfind' : findSession
        { st with reports := (sid, buildReport env s) :: st.reports } sid = some s := hfind
    rw [hfind']
    dsimp only
    rw [if_neg (not_not_intro hc)]
    simp [List.find?]

/-- C7: for a completed session the synthesized report's overall score is
the arithmetic mean of all per-question scores (counting unanswered or
zeroed questions as 0), its category scores contain exactly one entry per
distinct category present, each the mean of that category's question
scores, its question details echo every question; and for a two-question
session the overall score is (score0 + score1) / 2. -/
theorem report_mean_scores (env : GEnv) (st : EngineDB) (sid : Nat)
    (s : Session)
    (hfind : findSession st sid = some s)
    (hc : s.status = .COMPLETED)
    (hnor : st.reports.find? (fun x => x.1 == sid) = none) :
    ∀ rep st' tr, getReport env st sid = (.ok rep, st', tr) →
      rep.overallScore = mean (s.questions.map qScore) ∧
      rep.questionDetails.length = s.questions.length ∧
      (rep.categoryScores.map Prod.fst).Nodup ∧
      rep.categoryScores.map Prod.fst = categoriesOf s.questions ∧
      (∀ c ∈ categoriesOf s.questions,
        (c, categoryScore s.questions c) ∈ rep.categoryScores) ∧
      (∀ q ∈ s.questions, q.category ∈ rep.categoryScores.map Prod.fst) ∧
      (∀ q0 q1 n0 n1, s.questions = [q0, q1] → q0.score = some n0 →
        q1.score = some n1 → rep.overallScore = ((n0 : ℚ) + n1) / 2) := by
  intro rep st' tr h
  rw [getReport_fresh_eq env st sid s hfind hc hnor] at h
  simp only [Prod.mk.injEq, Except.ok.injEq] at h
  obtain ⟨hrep, -, -⟩ := h
  subst hrep
  have hfst : (buildReport env s).categoryScores.map Prod.fst =
      categoriesOf s.questions := by
    unfold buildReport
    simp only [List.map_map]
    exact List.map_id'' (fun c => rfl) _
  refine ⟨rfl, by simp [buildReport], ?_, hfst, ?_, ?_, ?_⟩
  · rw [hfst]
    exact List.nodup_dedup _
  · intro c hcmem
    unfold buildReport
    exact List.mem_map_of_mem _ hcmem
  · intro q hq
    rw [hfst]
    exact List.mem_dedup.mpr (List.mem_map_of_mem _ hq)
  · intro q0 q1 n0 n1 hqs h0 h1
    show mean (s.questions.map qScore) = ((n0 : ℚ) + n1) / 2
    rw [hqs]
    simp [mean, qScore, h0, h1]

/-! ## Concrete engine instances for witnesses -/

/-- A concrete capability environment for the engine witnesses. -/
def genvW : GEnv :=
  { generateQuestions := fun _ n => (List.range n).map fun _ => ("Q", "general"),
    gradeAnswer := fun _ a => (80, "graded " ++ a),
    synthesize := fun _ => ("overall", ["s1"], ["i1"]),
    referenceAnswer := fun q => ("ref " ++ q, ["kp"]) }

/-- First question of the two-question witness session. -/
def qW0 : Question :=
  { questionIndex := 0, question := "Q", category := "general",
    userAnswer := none, score := none, feedback := none }

/-- Second question of the two-question witness session. -/
def qW1 : Question := { qW0 with questionIndex := 1 }

/-- An in-progress two-question session at cursor 0 for résumé 1. -/
def sessActW : Session :=
  { sessionId := 2, resumeId := 1, questions := [qW0, qW1],
    currentQuestionIndex := 0, status := .IN_PROGRESS }

/-- Engine store holding only `sessActW`. -/
def stActW : EngineDB := { sessions := [sessActW], reports := [], nextSessionId := 5 }

/-- Witness for C2: create-or-resume on résumé 1, which has the active
session `sessActW`, returns it unchanged without touching the store, and
a subsequent answer submission preserves the at-most-one-active
invariant. -/
theorem session_single_active_w :
    createOrResumeSession genvW stActW "txt" 2 1 = (.ok sessActW, stActW, []) ∧
    AtMostOneActive (submitAnswer genvW stActW 2 0 "ans").2.1 := by
  have h := session_single_active genvW stActW (by decide)
  exact ⟨h.1 1 sessActW "txt" 2 (by decide), h.2.2.2.1 2 0 "ans"⟩

/-- `qW0` as answered by the first witness submission. -/
def qW0a : Question :=
  { qW0 with userAnswer := some "a", score := some 80, feedback := some "graded a" }

/-- The session after submitting answer "a" at index 0 of `sessActW`. -/
def sessActW' : Session :=
  { sessionId := 2, resumeId := 1, questions := [qW0a, qW1],
    currentQuestionIndex := 1, status := .IN_PROGRESS }

/-- Engine store after the first submission against `stActW`. -/
def stActW' : EngineDB := { sessions := [sessActW'], reports := [], nextSessionId := 5 }

/-- Witness for C3: against `stActW` (cursor 0), submitting for index 2
fails with IndexMismatch, while submitting for index 0 succeeds and
advances the cursor to 1 with the session still IN_PROGRESS. -/
theorem submitAnswer_protocol_w :
    (submitAnswer genvW stActW 2 2 "a" = (.error .indexMismatch, stActW, [])) ∧
    (∃ s', findSession stActW' 2 = some s' ∧
       s'.currentQuestionIndex = sessActW.currentQuestionIndex + 1 ∧
       (s'.status = .COMPLETED ↔
         sessActW.questions.length ≤ sessActW.currentQuestionIndex + 1)) := by
  have h1 := (submitAnswer_protocol genvW stActW 2 2 "a").2.2.1 sessActW
    (by decide) (by decide) (by decide)
  have h2 := (submitAnswer_protocol genvW stActW 2 0 "a").2.2.2 sessActW
    (by decide) (by decide) (by decide)
    { score := 80, feedback := "graded a", hasNextQuestion := true,
      nextQuestion := some qW1 }
    stActW' [.gradeCall "Q" "a"] (by decide)
  obtain ⟨s', hf, hcur, hst, -, -⟩ := h2
  exact ⟨h1, s', hf, hcur, hst⟩

/-- First graded question of the completed witness session: score 80. -/
def qDone0 : Question :=
  { qW0 with userAnswer := some "a", score := some 80, feedback := some "fa" }

/-- Second graded question of the completed witness session: score 60,
category "coding". -/
def qDone1 : Question :=
  { qW1 with userAnswer := some "b", score := some 60, feedback := some "fb", category := "coding" }

/-- A completed two-question session with scores 80 and 60. -/
def sessDoneW : Session :=
  { sessionId := 11, resumeId := 6, questions := [qDone0, qDone1],
    currentQuestionIndex := 2, status := .COMPLETED }

/-- Engine store holding only the completed session, with no report. -/
def stDoneW : EngineDB :=
  { sessions := [sessDoneW], reports := [], nextSessionId := 12 }

/-- Engine store after the first report request against `stDoneW`. -/
def stDoneW' : EngineDB :=
  { sessions := [sessDoneW],
    reports := [(11, buildReport genvW sessDoneW)], nextSessionId := 12 }

/-- Witness for C4: the first report request on the completed session
synthesizes and persists the report; the second request returns the
identical report with no synthesis call and no state change. -/
theorem getReport_once_cached_w :
    getReport genvW stDoneW' 11 =
      (.ok (buildReport genvW sessDoneW), stDoneW', []) := by
  have h := (getReport_once_cached genvW stDoneW 11).2.2.2 sessDoneW
    (by decide) (by decide) (by decide)
    (buildReport genvW sessDoneW) stDoneW' [.synthesisCall 11] (by rfl)
  exact h.2.2.2

/-- An 8-question session at cursor 3: questions 0 to 2 answered with
score 70, questions 3 to 7 unanswered. -/
def sess8W : Session :=
  { sessionId := 9, resumeId := 4,
    questions := (List.range 8).map fun i =>
      { questionIndex := i, question := "Q", category := "general",
        userAnswer := if i < 3 then some "a" else none,
        score := if i < 3 then some 70 else none,
        feedback := if i < 3 then some "f" else none },
    currentQuestionIndex := 3, status := .IN_PROGRESS }

/-- Engine store holding only `sess8W`. -/
def st8W : EngineDB := { sessions := [sess8W], reports := [], nextSessionId := 10 }

/-- Witness for C5: early completion of the 8-question session at cursor
3 succeeds, the stored session becomes COMPLETED with cursor still 3, and
its questions are the zero-fill of the originals; in particular question
3 is scored 0 with non-response feedback. -/
theorem completeEarly_zero_fill_w :
    (completeEarly st8W 9).1 = .ok () ∧
    (∃ s', findSession (completeEarly st8W 9).2.1 9 = some s' ∧
       s'.status = .COMPLETED ∧
       s'.currentQuestionIndex = 3 ∧
       s'.questions = sess8W.questions.map (zeroFill 3)) ∧
    zeroFill 3 { questionIndex := 3, question := "Q", category := "general",
                 userAnswer := none, score := none, feedback := none } =
      { questionIndex := 3, question := "Q", category := "general",
        userAnswer := none, score := some 0,
        feedback := some nonResponseFeedback } := by
  have h := (completeEarly_zero_fill st8W 9).2.2 sess8W (by decide) (by decide)
  obtain ⟨h1, s', hf, hst, hcur, hqs, hfill, -⟩ := h
  refine ⟨h1, ⟨s', hf, hst, hcur, hqs⟩, ?_⟩
  have h3 := hfill
    { questionIndex := 3, question := "Q", category := "general",
      userAnswer := none, score := none, feedback := none }
    (by decide) (by decide) (by decide)
  exact h3

/-- Witness for C7: the report of the completed two-question session with
scores 80 and 60 has overall score (80 + 60) / 2 and one category entry
for each of its two distinct categories. -/
theorem report_mean_scores_w :
    (buildReport genvW sessDoneW).overallScore = ((80 : ℚ) + 60) / 2 ∧
    (buildReport genvW sessDoneW).questionDetails.length = 2 ∧
    (buildReport genvW sessDoneW).categoryScores.map Prod.fst =
      categoriesOf sessDoneW.questions := by
  have h := report_mean_scores genvW stDoneW 11 sessDoneW
    (by decide) (by decide) (by decide)
    (buildReport genvW sessDoneW) stDoneW' [.synthesisCall 11] (by rfl)
  refine ⟨?_, h.2.1, h.2.2.2.1⟩
  exact h.2.2.2.2.2.2 qDone0 qDone1 80 60 rfl (by decide) (by decide)

end InterviewGuide
